import Mathlib

/-!
# lambdaGo-AWS-SMSToSNS: the `/sms` handler, the Prometheus middleware and the system sampler

A shallow embedding of `main.go`.

* The anonymous `POST /sms` handler (main.go 76-123) is embedded as `smsHandler`, a program in a
  small effect monad that records every external call, log line and JSON response in order and
  can stop with a Go panic.
* `PrometheusMiddleware` (main.go 131-141) is embedded as a function on the metric registry.
* `collectSystemMetrics` (main.go 143-161) is embedded as one loop iteration, `sampleOnce`, and
  the run of the loop over a finite list of OS samples.

Third-party code (gin, the AWS SDK, gopsutil, the Prometheus client) is not part of the
repository: the results of its calls are inputs of the embedding.
-/

namespace SmsToSns

/-! ## Data model of the `/sms` path -/

/-- Struct `RequestBody` (main.go 64-67); both fields carry `binding:"required"`. -/
structure RequestBody where
  PhoneNumber : String
  Message : String
  deriving DecidableEq, Repr

/-- The request body as the JSON decoder of `c.ShouldBindJSON` sees it: either the decoder rejects
it (`malformed`: a syntax error, an empty body, a field of the wrong JSON type), or it is a JSON
object, of which only the keys `phone_number` and `message` matter; `none` is an absent key (or
a JSON `null`, which the decoder skips). -/
inductive Payload where
  | malformed (err : String)
  | object (phone_number : Option String) (message : Option String)
  deriving DecidableEq, Repr

/-- Field `Region` of `aws.Config`, the only one the handler sets. -/
structure Config where
  Region : String
  deriving DecidableEq, Repr

/-- AWS session, as returned by `session.NewSession`: it carries the configuration it was
created from. -/
structure Session where
  config : Config
  deriving DecidableEq, Repr

/-- Struct `sns.PublishInput`, with the two fields the handler fills in. -/
structure PublishInput where
  PhoneNumber : String
  Message : String
  deriving DecidableEq, Repr

/-- Struct `sns.PublishOutput`: `MessageId` is a `*string`, so it may be nil (`none`). -/
structure PublishOutput where
  MessageId : Option String
  deriving DecidableEq, Repr

/-- The external SMS provider, as the handler uses it: `session.NewSession` and the `Publish`
operation of the SNS client built from the session. Each returns a value or an error text. -/
structure Provider where
  NewSession : Config → Except String Session
  Publish : Session → PublishInput → Except String PublishOutput

/-- An external call made by the handler. -/
inductive ExternalCall where
  | newSession (cfg : Config)
  | publish (sess : Session) (input : PublishInput)
  deriving DecidableEq, Repr

/-- Log levels of the three logrus calls in the handler. -/
inductive LogLevel where
  | info
  | warn
  | error
  deriving DecidableEq, Repr

/-- A JSON response written with `c.JSON(status, gin.H ...)`: the status and the key/value pairs
of the `gin.H` map. -/
structure Response where
  status : Nat
  body : List (String × String)
  deriving DecidableEq, Repr

/-- Everything the handler does to the outside world, in program order. -/
structure Effects where
  calls : List ExternalCall := []
  logs : List (LogLevel × String) := []
  written : List Response := []
  deriving DecidableEq, Repr

/-- A Go run-time panic. -/
inductive Panic where
  | nilDereference
  deriving DecidableEq, Repr

/-- Handler programs: they change `Effects` and may panic; the effects made before a panic
stay. -/
abbrev HandlerM := ExceptT Panic (StateM Effects)

/-- Constant `http.StatusOK`. -/
def StatusOK : Nat := 200

/-- Constant `http.StatusBadRequest`. -/
def StatusBadRequest : Nat := 400

/-- Constant `http.StatusInternalServerError`. -/
def StatusInternalServerError : Nat := 500

/-- Call `c.ShouldBindJSON(&requestBody)`: decode the body into a zero-valued `RequestBody` (an
absent key leaves the Go zero value `""`), then check the `binding:"required"` tags, which
reject a field that still holds its zero value. -/
def ShouldBindJSON (body : Payload) : Except String RequestBody :=
  match body with
  | .malformed err => .error err
  | .object phone_number message =>
    let requestBody : RequestBody :=
      { PhoneNumber := phone_number.getD "", Message := message.getD "" }
    if requestBody.PhoneNumber = "" then
      .error "RequestBody.PhoneNumber: Field validation failed on the required tag"
    else if requestBody.Message = "" then
      .error "RequestBody.Message: Field validation failed on the required tag"
    else
      .ok requestBody

/-- A logrus call at the given level. -/
def logf (level : LogLevel) (text : String) : HandlerM Unit :=
  modify fun e => { e with logs := e.logs ++ [(level, text)] }

/-- Call `c.JSON(status, gin.H ...)`: one more response written. -/
def JSON (status : Nat) (h : List (String × String)) : HandlerM Unit :=
  modify fun e => { e with written := e.written ++ [{ status := status, body := h }] }

/-- Call `session.NewSession(cfg)`: the call is recorded, the provider decides its result. -/
def NewSession (aws : Provider) (cfg : Config) : HandlerM (Except String Session) := do
  modify fun e => { e with calls := e.calls ++ [.newSession cfg] }
  pure (aws.NewSession cfg)

/-- Call `sns.New(sess).Publish(params)`: the call is recorded, the provider decides its result. -/
def Publish (aws : Provider) (sess : Session) (params : PublishInput) :
    HandlerM (Except String PublishOutput) := do
  modify fun e => { e with calls := e.calls ++ [.publish sess params] }
  pure (aws.Publish sess params)

/-- Dereference of a Go pointer: a nil pointer panics. -/
def deref {α : Type} (p : Option α) : HandlerM α :=
  match p with
  | some a => pure a
  | none => throw .nilDereference

/-- The handler registered for `POST /sms` (main.go 76-123). -/
def smsHandler (aws : Provider) (body : Payload) : HandlerM Unit := do
  match ShouldBindJSON body with
  | .error err =>
    logf .warn ("Falha ao analisar o corpo da solicitação: " ++ err)
    JSON StatusBadRequest [("message", "Corpo de solicitação inválido")]
    return
  | .ok requestBody =>
    let phoneNumber := requestBody.PhoneNumber
    let message := requestBody.Message
    match ← NewSession aws { Region := "us-east-1" } with
    | .error err =>
      logf .error ("Falha ao criar uma nova sessão da AWS: " ++ err)
      JSON StatusInternalServerError [("message", "Falha ao criar uma nova sessão da AWS")]
      return
    | .ok sess =>
      let params : PublishInput := { PhoneNumber := phoneNumber, Message := message }
      match ← Publish aws sess params with
      | .error err =>
        logf .error ("Falha ao enviar SMS: " ++ err)
        JSON StatusInternalServerError [("message", "Falha ao enviar SMS")]
        return
      | .ok response =>
        let messageId ← deref response.MessageId
        logf .info ("SMS enviado com sucesso para " ++ phoneNumber ++ ". MessageId: " ++ messageId)
        let messageId ← deref response.MessageId
        JSON StatusOK
          [("message", "SMS enviado com sucesso para " ++ phoneNumber ++ ". MessageId: " ++ messageId)]

/-- How a piece of Go code ends: it returns, or a panic leaves it. -/
inductive Exit where
  | returned
  | panicked (p : Panic)
  deriving DecidableEq, Repr

/-- How a handler run ended and what it did. -/
structure Outcome where
  exit : Exit
  effects : Effects
  deriving DecidableEq, Repr

/-- One handling of a `POST /sms` request, from no effects. -/
def handle (aws : Provider) (body : Payload) : Outcome :=
  match (smsHandler aws body).run.run {} with
  | (.ok _, e) => { exit := .returned, effects := e }
  | (.error p, e) => { exit := .panicked p, effects := e }

/-- Number of `session.NewSession` calls in a trace. -/
def sessionCalls (cs : List ExternalCall) : Nat :=
  (cs.filter fun c => match c with
    | .newSession _ => true
    | .publish _ _ => false).length

/-- Number of `Publish` calls in a trace. -/
def publishCalls (cs : List ExternalCall) : Nat :=
  (cs.filter fun c => match c with
    | .newSession _ => false
    | .publish _ _ => true).length

/-- A provider whose session always opens and whose publish always returns `out`. -/
def stubProvider (out : Except String PublishOutput) : Provider :=
  { NewSession := fun cfg => .ok { config := cfg }, Publish := fun _ _ => out }

/-- A provider whose session cannot be opened. -/
def noSessionProvider : Provider :=
  { NewSession := fun _ => .error "NoCredentialProviders", Publish := fun _ _ => .ok ⟨some "x"⟩ }

/-- A body fails binding: `c.ShouldBindJSON` returns an error. -/
def BindingFails (body : Payload) : Prop :=
  ∃ err, ShouldBindJSON body = .error err


/-! ## The metric registry and `PrometheusMiddleware` -/

/-- One `Observe` on the histogram vector `httpResponseTime`, declared (main.go 28-35) with the
three labels `method`, `endpoint`, `status_code`; `elapsed` is the observed duration
(a `time.Duration`, which the timer hands over in seconds). -/
structure Observation where
  method : String
  endpoint : String
  status_code : String
  elapsed : Nat
  deriving DecidableEq, Repr

/-- The five metrics registered in `init` (main.go 20-59).
`httpRequestsTotal` and `networkTraffic` are counter vectors: a value for every combination of
label values, zero until touched. `httpResponseTime` is a histogram vector, kept as the list of
its observations, from which every cell's count, sum and buckets follow. The gauges hold the last
value set. Counter and gauge values are `float64` in Go and exact numbers here. -/
structure Registry where
  httpRequestsTotal : String → String → String → Nat
  httpResponseTime : List Observation
  cpuUsage : Rat
  memoryUsage : Rat
  networkTraffic : String → Nat

/-- The registry right after `init`: nothing counted, nothing observed. -/
def emptyRegistry : Registry :=
  { httpRequestsTotal := fun _ _ _ => 0,
    httpResponseTime := [],
    cpuUsage := 0,
    memoryUsage := 0,
    networkTraffic := fun _ => 0 }

/-- Call `vec.WithLabelValues(method, endpoint, status_code).Inc()` on a three-label counter. -/
def Inc (vec : String → String → String → Nat) (method endpoint status_code : String) :
    String → String → String → Nat :=
  fun m e s =>
    if m = method ∧ e = endpoint ∧ s = status_code then vec m e s + 1 else vec m e s

/-- Call `vec.WithLabelValues(direction).Add(v)` on a one-label counter. -/
def Add (vec : String → Nat) (direction : String) (v : Nat) : String → Nat :=
  fun d => if d = direction then vec d + v else vec d

/-- How `c.Next()` ends: the downstream handlers return, leaving `c.Writer.Status()` at `status`
(the status they wrote), or a panic leaves them. -/
inductive Downstream where
  | completed (status : Nat)
  | panicked (p : Panic)
  deriving DecidableEq, Repr

/-- One inbound request as the middleware sees it: `c.Request.Method`, `c.Request.URL.Path`, how
`c.Next()` ends, and the time between `prometheus.NewTimer` and `timer.ObserveDuration`. -/
structure Exchange where
  Method : String
  Path : String
  next : Downstream
  elapsed : Nat
  deriving DecidableEq, Repr

/-- Call `timer.ObserveDuration()` for a timer made from
`httpResponseTime.WithLabelValues(method, path, "0")`. -/
def ObserveDuration (reg : Registry) (x : Exchange) : Registry :=
  { reg with
    httpResponseTime := reg.httpResponseTime ++
      [{ method := x.Method, endpoint := x.Path, status_code := "0", elapsed := x.elapsed }] }

/-- The handler returned by `PrometheusMiddleware()` (main.go 131-141), run on one request.
The timer is created first and its `ObserveDuration` is deferred, so it runs when the function
is left, by return or by panic. After `c.Next()` returns, the status is printed with
`fmt.Sprint` and the counter cell is incremented; a panic out of `c.Next()` skips these two
statements and goes on up the handler chain. -/
def PrometheusMiddleware (x : Exchange) (reg : Registry) : Exit × Registry :=
  match x.next with
  | .completed status =>
    let statusCode := toString status
    let reg := { reg with
      httpRequestsTotal := Inc reg.httpRequestsTotal x.Method x.Path statusCode }
    (.returned, ObserveDuration reg x)
  | .panicked p =>
    (.panicked p, ObserveDuration reg x)

/-- The registry after a sequence of requests has gone through the middleware, one after the
other. A panic that leaves the middleware is caught further up the handler chain, by the
recovery handler that `gin.Default()` installs before `r.Use(PrometheusMiddleware())`, so the
server goes on with the next request. -/
def serve (xs : List Exchange) (reg : Registry) : Registry :=
  xs.foldl (fun r x => (PrometheusMiddleware x r).2) reg

/-- Observation count of `http_response_time_seconds` over the cells of a (method, endpoint)
pair, whatever their `status_code` label. -/
def observationCount (reg : Registry) (method endpoint : String) : Nat :=
  (reg.httpResponseTime.filter fun o => o.method = method ∧ o.endpoint = endpoint).length

/-- Observation count of the one histogram cell with these three label values. -/
def cellObservationCount (reg : Registry) (method endpoint status_code : String) : Nat :=
  (reg.httpResponseTime.filter fun o =>
    o.method = method ∧ o.endpoint = endpoint ∧ o.status_code = status_code).length

/-- The per-request clause of C6 as the specification words it: going from `before` to `after`,
exactly one cell of `http_requests_total` went up, by exactly 1, and every other cell kept its
value. -/
def IncrementsOneCell (before after : Registry) : Prop :=
  ∃ m p l, after.httpRequestsTotal m p l = before.httpRequestsTotal m p l + 1 ∧
    ∀ m2 p2 l2, ¬ (m2 = m ∧ p2 = p ∧ l2 = l) →
      after.httpRequestsTotal m2 p2 l2 = before.httpRequestsTotal m2 p2 l2

/-! ## The system sampler `collectSystemMetrics` -/

/-- Struct `mem.VirtualMemoryStat`, with the field the sampler reads. -/
structure VirtualMemoryStat where
  UsedPercent : Rat
  deriving DecidableEq, Repr

/-- Struct `net.IOCountersStat`, with the two `uint64` fields the sampler reads. -/
structure IOCountersStat where
  BytesSent : Nat
  BytesRecv : Nat
  deriving DecidableEq, Repr

/-- What the three OS queries of one loop iteration return; the sampler discards the errors
(`_`), so only the data is kept. A failed query returns no data: a nil slice (`[]`) from
`cpu.Percent` and `net.IOCounters`, a nil pointer (`none`) from `mem.VirtualMemory`. -/
structure Sample where
  cpuPercent : List Rat
  memStat : Option VirtualMemoryStat
  netStat : List IOCountersStat
  deriving DecidableEq, Repr

/-- Body of the `for _, stat := range netStat` loop (main.go 154-157). -/
def addTraffic (reg : Registry) (stat : IOCountersStat) : Registry :=
  let reg := { reg with networkTraffic := Add reg.networkTraffic "sent" stat.BytesSent }
  { reg with networkTraffic := Add reg.networkTraffic "received" stat.BytesRecv }

/-- One iteration of the loop of `collectSystemMetrics` (main.go 145-157), up to the sleep.
`memStat.UsedPercent` is read through the pointer without a nil check, so a nil `memStat`
panics; the CPU gauge has been set by then. -/
def sampleOnce (s : Sample) (reg : Registry) : Exit × Registry :=
  let reg :=
    match s.cpuPercent with
    | v :: _ => { reg with cpuUsage := v }
    | [] => reg
  match s.memStat with
  | none => (.panicked .nilDereference, reg)
  | some memStat =>
    let reg := { reg with memoryUsage := memStat.UsedPercent }
    (.returned, s.netStat.foldl addTraffic reg)

/-- Function `collectSystemMetrics` (main.go 143-161) over the samples of its successive
iterations. The loop has no exit: `.returned` after the last sample means it is asleep before the
next iteration. A panic ends the goroutine, and with it the process, since nothing recovers it:
the samples that follow are never taken. -/
def collectSystemMetrics : List Sample → Registry → Exit × Registry
  | [], reg => (.returned, reg)
  | s :: rest, reg =>
    match sampleOnce s reg with
    | (.returned, reg) => collectSystemMetrics rest reg
    | (.panicked p, reg) => (.panicked p, reg)

/-- Bytes sent reported by one sample: the sum over the interface stats it returned. -/
def sentTotal (s : Sample) : Nat :=
  (s.netStat.map fun stat => stat.BytesSent).sum

/-- Bytes received reported by one sample: the sum over the interface stats it returned. -/
def recvTotal (s : Sample) : Nat :=
  (s.netStat.map fun stat => stat.BytesRecv).sum

/-! ## Reading decimal numerals back -/

/-- Value of a decimal digit character. -/
def digitVal (c : Char) : Nat :=
  c.toNat - 48

/-- Value of a list of decimal digits, most significant first. -/
def readDigits (cs : List Char) : Nat :=
  cs.foldl (fun a c => a * 10 + digitVal c) 0

/-! ## Statements about response texts -/

/-- String `s` occurs in string `t`. -/
def Occurs (s t : String) : Prop :=
  ∃ before after, t = before ++ s ++ after

/-- The response of C2 as the specification words it: one JSON response, status 200, whose
message contains the phone number and a non-empty identifier, the one the provider returned. -/
def RespondsWithIdentifier (o : Outcome) (phone : String) (out : PublishOutput) : Prop :=
  ∃ msg id, o.effects.written = [⟨200, [("message", msg)]⟩] ∧ Occurs phone msg ∧
    out.MessageId = some id ∧ id ≠ "" ∧ Occurs id msg

/-! ## The five paths through the handler -/

theorem handle_bind_error (aws : Provider) (body : Payload) (err : String)
    (hb : ShouldBindJSON body = .error err) :
    handle aws body =
      { exit := .returned,
        effects :=
          { calls := [],
            logs := [(.warn, "Falha ao analisar o corpo da solicitação: " ++ err)],
            written := [⟨400, [("message", "Corpo de solicitação inválido")]⟩] } } := by
  unfold handle smsHandler
  rw [hb]
  rfl

theorem handle_session_error (aws : Provider) (body : Payload) (rb : RequestBody) (err : String)
    (hb : ShouldBindJSON body = .ok rb)
    (hs : aws.NewSession { Region := "us-east-1" } = .error err) :
    handle aws body =
      { exit := .returned,
        effects :=
          { calls := [.newSession { Region := "us-east-1" }],
            logs := [(.error, "Falha ao criar uma nova sessão da AWS: " ++ err)],
            written := [⟨500, [("message", "Falha ao criar uma nova sessão da AWS")]⟩] } } := by
  unfold handle smsHandler NewSession
  rw [hb]
  simp only [bind, ExceptT.bind, ExceptT.mk, ExceptT.bindCont, StateT.bind, modify, modifyGet,
    MonadStateOf.modifyGet, monadLift, MonadLift.monadLift, ExceptT.lift, StateT.modifyGet,
    pure, ExceptT.pure, StateT.pure, Functor.map, StateT.map, ExceptT.run, StateT.run, hs]
  rfl

theorem handle_publish_error (aws : Provider) (body : Payload) (rb : RequestBody)
    (sess : Session) (err : String)
    (hb : ShouldBindJSON body = .ok rb)
    (hs : aws.NewSession { Region := "us-east-1" } = .ok sess)
    (hp : aws.Publish sess { PhoneNumber := rb.PhoneNumber, Message := rb.Message } = .error err) :
    handle aws body =
      { exit := .returned,
        effects :=
          { calls := [.newSession { Region := "us-east-1" },
              .publish sess { PhoneNumber := rb.PhoneNumber, Message := rb.Message }],
            logs := [(.error, "Falha ao enviar SMS: " ++ err)],
            written := [⟨500, [("message", "Falha ao enviar SMS")]⟩] } } := by
  unfold handle smsHandler NewSession Publish
  rw [hb]
  simp only [bind, ExceptT.bind, ExceptT.mk, ExceptT.bindCont, StateT.bind, modify, modifyGet,
    MonadStateOf.modifyGet, monadLift, MonadLift.monadLift, ExceptT.lift, StateT.modifyGet,
    pure, ExceptT.pure, StateT.pure, Functor.map, StateT.map, ExceptT.run, StateT.run, hs, hp]
  rfl

theorem handle_publish_ok (aws : Provider) (body : Payload) (rb : RequestBody)
    (sess : Session) (id : String)
    (hb : ShouldBindJSON body = .ok rb)
    (hs : aws.NewSession { Region := "us-east-1" } = .ok sess)
    (hp : aws.Publish sess { PhoneNumber := rb.PhoneNumber, Message := rb.Message }
      = .ok { MessageId := some id }) :
    handle aws body =
      { exit := .returned,
        effects :=
          { calls := [.newSession { Region := "us-east-1" },
              .publish sess { PhoneNumber := rb.PhoneNumber, Message := rb.Message }],
            logs := [(.info,
              "SMS enviado com sucesso para " ++ rb.PhoneNumber ++ ". MessageId: " ++ id)],
            written := [⟨200, [("message",
              "SMS enviado com sucesso para " ++ rb.PhoneNumber ++ ". MessageId: " ++ id)]⟩] } } := by
  unfold handle smsHandler NewSession Publish
  rw [hb]
  simp only [bind, ExceptT.bind, ExceptT.mk, ExceptT.bindCont, StateT.bind, modify, modifyGet,
    MonadStateOf.modifyGet, monadLift, MonadLift.monadLift, ExceptT.lift, StateT.modifyGet,
    pure, ExceptT.pure, StateT.pure, Functor.map, StateT.map, ExceptT.run, StateT.run, hs, hp]
  rfl

theorem handle_publish_nil (aws : Provider) (body : Payload) (rb : RequestBody)
    (sess : Session)
    (hb : ShouldBindJSON body = .ok rb)
    (hs : aws.NewSession { Region := "us-east-1" } = .ok sess)
    (hp : aws.Publish sess { PhoneNumber := rb.PhoneNumber, Message := rb.Message }
      = .ok { MessageId := none }) :
    handle aws body =
      { exit := .panicked .nilDereference,
        effects :=
          { calls := [.newSession { Region := "us-east-1" },
              .publish sess { PhoneNumber := rb.PhoneNumber, Message := rb.Message }],
            logs := [],
            written := [] } } := by
  unfold handle smsHandler NewSession Publish
  rw [hb]
  simp only [bind, ExceptT.bind, ExceptT.mk, ExceptT.bindCont, StateT.bind, modify, modifyGet,
    MonadStateOf.modifyGet, monadLift, MonadLift.monadLift, ExceptT.lift, StateT.modifyGet,
    pure, ExceptT.pure, StateT.pure, Functor.map, StateT.map, ExceptT.run, StateT.run, hs, hp]
  rfl

/-- Binding succeeds exactly on an object whose two fields are present and non-empty, and then
yields those two strings. -/
theorem ShouldBindJSON_ok_iff (body : Payload) (rb : RequestBody) :
    ShouldBindJSON body = .ok rb ↔
      body = .object (some rb.PhoneNumber) (some rb.Message) ∧
        rb.PhoneNumber ≠ "" ∧ rb.Message ≠ "" := by
  constructor
  · intro h
    cases body with
    | malformed e => simp [ShouldBindJSON] at h
    | object p m =>
      unfold ShouldBindJSON at h
      simp only at h
      split_ifs at h with h1 h2
      injection h with h
      subst h
      simp only at h1 h2 ⊢
      cases p with
      | none => exact absurd rfl h1
      | some p =>
        cases m with
        | none => exact absurd rfl h2
        | some m => exact ⟨rfl, h1, h2⟩
  · rintro ⟨rfl, h1, h2⟩
    simp [ShouldBindJSON, h1, h2]

/-- Malformed JSON fails binding. -/
theorem bindingFails_malformed (e : String) : BindingFails (.malformed e) :=
  ⟨e, rfl⟩

/-- An object fails binding exactly when `phone_number` or `message` is absent or the empty
string. -/
theorem bindingFails_object_iff (p m : Option String) :
    BindingFails (.object p m) ↔ (p = none ∨ p = some "" ∨ m = none ∨ m = some "") := by
  unfold BindingFails
  cases p with
  | none => simp [ShouldBindJSON]
  | some p =>
    cases m with
    | none =>
      by_cases hp : p = "" <;> simp [ShouldBindJSON, hp]
    | some m =>
      by_cases hp : p = "" <;> by_cases hm : m = "" <;> simp [ShouldBindJSON, hp, hm]

/-- Every run of the handler takes one of its five paths. -/
theorem handle_cases (aws : Provider) (body : Payload) :
    (∃ err, ShouldBindJSON body = .error err ∧
      handle aws body =
        { exit := .returned,
          effects :=
            { calls := [],
              logs := [(.warn, "Falha ao analisar o corpo da solicitação: " ++ err)],
              written := [⟨400, [("message", "Corpo de solicitação inválido")]⟩] } }) ∨
    (∃ rb err, ShouldBindJSON body = .ok rb ∧
      aws.NewSession { Region := "us-east-1" } = .error err ∧
      handle aws body =
        { exit := .returned,
          effects :=
            { calls := [.newSession { Region := "us-east-1" }],
              logs := [(.error, "Falha ao criar uma nova sessão da AWS: " ++ err)],
              written := [⟨500, [("message", "Falha ao criar uma nova sessão da AWS")]⟩] } }) ∨
    (∃ rb sess err, ShouldBindJSON body = .ok rb ∧
      aws.NewSession { Region := "us-east-1" } = .ok sess ∧
      aws.Publish sess { PhoneNumber := rb.PhoneNumber, Message := rb.Message } = .error err ∧
      handle aws body =
        { exit := .returned,
          effects :=
            { calls := [.newSession { Region := "us-east-1" },
                .publish sess { PhoneNumber := rb.PhoneNumber, Message := rb.Message }],
              logs := [(.error, "Falha ao enviar SMS: " ++ err)],
              written := [⟨500, [("message", "Falha ao enviar SMS")]⟩] } }) ∨
    (∃ rb sess id, ShouldBindJSON body = .ok rb ∧
      aws.NewSession { Region := "us-east-1" } = .ok sess ∧
      aws.Publish sess { PhoneNumber := rb.PhoneNumber, Message := rb.Message }
        = .ok { MessageId := some id } ∧
      handle aws body =
        { exit := .returned,
          effects :=
            { calls := [.newSession { Region := "us-east-1" },
                .publish sess { PhoneNumber := rb.PhoneNumber, Message := rb.Message }],
              logs := [(.info,
                "SMS enviado com sucesso para " ++ rb.PhoneNumber ++ ". MessageId: " ++ id)],
              written := [⟨200, [("message",
                "SMS enviado com sucesso para " ++ rb.PhoneNumber ++ ". MessageId: " ++ id)]⟩] } }) ∨
    (∃ rb sess, ShouldBindJSON body = .ok rb ∧
      aws.NewSession { Region := "us-east-1" } = .ok sess ∧
      aws.Publish sess { PhoneNumber := rb.PhoneNumber, Message := rb.Message }
        = .ok { MessageId := none } ∧
      handle aws body =
        { exit := .panicked .nilDereference,
          effects :=
            { calls := [.newSession { Region := "us-east-1" },
                .publish sess { PhoneNumber := rb.PhoneNumber, Message := rb.Message }],
              logs := [],
              written := [] } }) := by
  cases hb : ShouldBindJSON body with
  | error err => exact Or.inl ⟨err, rfl, handle_bind_error aws body err hb⟩
  | ok rb =>
    cases hs : aws.NewSession { Region := "us-east-1" } with
    | error err =>
      exact Or.inr (Or.inl ⟨rb, err, rfl, rfl, handle_session_error aws body rb err hb hs⟩)
    | ok sess =>
      cases hp : aws.Publish sess { PhoneNumber := rb.PhoneNumber, Message := rb.Message } with
      | error err =>
        exact Or.inr (Or.inr (Or.inl
          ⟨rb, sess, err, rfl, rfl, hp, handle_publish_error aws body rb sess err hb hs hp⟩))
      | ok out =>
        obtain ⟨mid⟩ := out
        cases mid with
        | some id =>
          exact Or.inr (Or.inr (Or.inr (Or.inl
            ⟨rb, sess, id, rfl, rfl, hp, handle_publish_ok aws body rb sess id hb hs hp⟩)))
        | none =>
          exact Or.inr (Or.inr (Or.inr (Or.inr
            ⟨rb, sess, rfl, rfl, hp, handle_publish_nil aws body rb sess hb hs hp⟩)))

/-- A request body with both fields present and non-empty binds to those two strings. -/
theorem ShouldBindJSON_object (p m : String) (hp : p ≠ "") (hm : m ≠ "") :
    ShouldBindJSON (.object (some p) (some m)) = .ok { PhoneNumber := p, Message := m } :=
  (ShouldBindJSON_ok_iff _ _).2 ⟨rfl, hp, hm⟩

/-! ## The claims on the `/sms` handler -/

/-- C1: a `POST /sms` request whose body fails binding to `RequestBody` is answered with status
400 and the fixed body `"message": "Corpo de solicitação inválido"`, and the handler makes no
external call: no session is created and the provider publish operation is not invoked. -/
theorem invalid_body_gets_400_without_external_call (aws : Provider) (body : Payload)
    (h : BindingFails body) :
    (handle aws body).exit = .returned ∧
    (handle aws body).effects.written =
      [⟨StatusBadRequest, [("message", "Corpo de solicitação inválido")]⟩] ∧
    (handle aws body).effects.calls = [] ∧
    sessionCalls (handle aws body).effects.calls = 0 ∧
    publishCalls (handle aws body).effects.calls = 0 := by
  obtain ⟨err, hb⟩ := h
  rw [handle_bind_error aws body err hb]
  exact ⟨rfl, rfl, rfl, rfl, rfl⟩

/-- Witness of C1: the scenario `"phone_number": "", "message": "hi"` of the specification. -/
theorem invalid_body_gets_400_without_external_call_witness :
    BindingFails (.object (some "") (some "hi")) ∧
    (handle (stubProvider (.ok ⟨some "msg-42"⟩)) (.object (some "") (some "hi"))).effects.written =
      [⟨400, [("message", "Corpo de solicitação inválido")]⟩] ∧
    publishCalls
      (handle (stubProvider (.ok ⟨some "msg-42"⟩)) (.object (some "") (some "hi"))).effects.calls
      = 0 :=
  have h : BindingFails (.object (some "") (some "hi")) := ⟨_, rfl⟩
  have t := invalid_body_gets_400_without_external_call
    (stubProvider (.ok ⟨some "msg-42"⟩)) (.object (some "") (some "hi")) h
  ⟨h, t.2.1, t.2.2.2.2⟩

/-- C2 fails as stated, at two success results of the provider, for the request
`"phone_number": "+15551234567", "message": "hi"` with a session that opens. When the provider
returns the empty identifier, the handler answers 200 with a message that ends in
`MessageId: ` and holds no non-empty identifier. When the provider returns no identifier (a nil
`MessageId`), the handler writes no response at all: it panics on the dereference. -/
theorem success_without_identifier_counterexample :
    ((stubProvider (.ok ⟨some ""⟩)).NewSession { Region := "us-east-1" }
        = .ok ⟨{ Region := "us-east-1" }⟩ ∧
      (stubProvider (.ok ⟨some ""⟩)).Publish ⟨{ Region := "us-east-1" }⟩
        { PhoneNumber := "+15551234567", Message := "hi" } = .ok ⟨some ""⟩ ∧
      (handle (stubProvider (.ok ⟨some ""⟩))
        (.object (some "+15551234567") (some "hi"))).effects.written =
        [⟨200, [("message", "SMS enviado com sucesso para +15551234567. MessageId: ")]⟩] ∧
      ¬ RespondsWithIdentifier
        (handle (stubProvider (.ok ⟨some ""⟩)) (.object (some "+15551234567") (some "hi")))
        "+15551234567" ⟨some ""⟩) ∧
    ((stubProvider (.ok ⟨none⟩)).Publish ⟨{ Region := "us-east-1" }⟩
        { PhoneNumber := "+15551234567", Message := "hi" } = .ok ⟨none⟩ ∧
      handle (stubProvider (.ok ⟨none⟩)) (.object (some "+15551234567") (some "hi")) =
        { exit := .panicked .nilDereference,
          effects :=
            { calls := [.newSession { Region := "us-east-1" },
                .publish ⟨{ Region := "us-east-1" }⟩
                  { PhoneNumber := "+15551234567", Message := "hi" }],
              logs := [],
              written := [] } } ∧
      ¬ RespondsWithIdentifier
        (handle (stubProvider (.ok ⟨none⟩)) (.object (some "+15551234567") (some "hi")))
        "+15551234567" ⟨none⟩) := by
  refine ⟨⟨rfl, rfl, by decide, ?_⟩, ⟨rfl, by decide, ?_⟩⟩
  · rintro ⟨msg, id, -, -, hid, hne, -⟩
    simp only [Option.some.injEq] at hid
    exact hne hid.symm
  · rintro ⟨msg, id, -, -, hid, -, -⟩
    simp at hid

/-- C2, amended: for a request body whose two strings are non-empty, when the session opens and
the provider publish call succeeds with a message identifier `id` (a `MessageId` that is not
nil), the handler returns after writing one response, status 200, whose message contains the
phone number and `id`; so it contains a non-empty provider identifier whenever the provider
returned a non-empty one. -/
theorem success_gets_200_with_phone_and_identifier (aws : Provider) (p m id : String)
    (sess : Session) (hp : p ≠ "") (hm : m ≠ "")
    (hs : aws.NewSession { Region := "us-east-1" } = .ok sess)
    (hpub : aws.Publish sess { PhoneNumber := p, Message := m } = .ok { MessageId := some id }) :
    (handle aws (.object (some p) (some m))).exit = .returned ∧
    (∃ msg, (handle aws (.object (some p) (some m))).effects.written =
        [⟨StatusOK, [("message", msg)]⟩] ∧
      Occurs p msg ∧ Occurs id msg) ∧
    (id ≠ "" →
      RespondsWithIdentifier (handle aws (.object (some p) (some m))) p { MessageId := some id }) := by
  rw [handle_publish_ok aws _ _ sess id (ShouldBindJSON_object p m hp hm) hs hpub]
  have hp_in : Occurs p ("SMS enviado com sucesso para " ++ p ++ ". MessageId: " ++ id) :=
    ⟨"SMS enviado com sucesso para ", ". MessageId: " ++ id, by simp only [String.append_assoc]⟩
  have hid_in : Occurs id ("SMS enviado com sucesso para " ++ p ++ ". MessageId: " ++ id) :=
    ⟨"SMS enviado com sucesso para " ++ p ++ ". MessageId: ", "",
      by simp only [String.append_empty]⟩
  exact ⟨rfl, ⟨_, rfl, hp_in, hid_in⟩, fun hne => ⟨_, id, rfl, hp_in, rfl, hne, hid_in⟩⟩

/-- Witness of the amended C2, with the provider identifier `msg-42`. -/
theorem success_gets_200_with_phone_and_identifier_witness :
    RespondsWithIdentifier
      (handle (stubProvider (.ok ⟨some "msg-42"⟩)) (.object (some "+15551234567") (some "hi")))
      "+15551234567" { MessageId := some "msg-42" } :=
  (success_gets_200_with_phone_and_identifier (stubProvider (.ok ⟨some "msg-42"⟩))
    "+15551234567" "hi" "msg-42" ⟨{ Region := "us-east-1" }⟩ (by decide) (by decide) rfl rfl).2.2
    (by decide)

/-- C3: for non-empty `p` and `m` and an identifier `id` returned by a successful publish, the
handler writes exactly one response, status 200 with body
`"message": "SMS enviado com sucesso para " ++ p ++ ". MessageId: " ++ id`. The message text `m`
is no part of it: the response is the same for every other non-empty message text (and any
provider) that gets the same identifier. -/
theorem success_body_is_exact_and_omits_message (aws : Provider) (p m id : String)
    (sess : Session) (hp : p ≠ "") (hm : m ≠ "")
    (hs : aws.NewSession { Region := "us-east-1" } = .ok sess)
    (hpub : aws.Publish sess { PhoneNumber := p, Message := m } = .ok { MessageId := some id }) :
    (handle aws (.object (some p) (some m))).exit = .returned ∧
    (handle aws (.object (some p) (some m))).effects.written =
      [⟨200, [("message", "SMS enviado com sucesso para " ++ p ++ ". MessageId: " ++ id)]⟩] ∧
    ∀ (aws2 : Provider) (m2 : String) (sess2 : Session), m2 ≠ "" →
      aws2.NewSession { Region := "us-east-1" } = .ok sess2 →
      aws2.Publish sess2 { PhoneNumber := p, Message := m2 } = .ok { MessageId := some id } →
      (handle aws2 (.object (some p) (some m2))).effects.written =
        (handle aws (.object (some p) (some m))).effects.written := by
  rw [handle_publish_ok aws _ _ sess id (ShouldBindJSON_object p m hp hm) hs hpub]
  refine ⟨rfl, rfl, ?_⟩
  intro aws2 m2 sess2 hm2 hs2 hpub2
  rw [handle_publish_ok aws2 _ _ sess2 id (ShouldBindJSON_object p m2 hp hm2) hs2 hpub2]

/-- Witness of C3: `p = "+15551234567"`, `m = "hi"`, `id = "msg-42"`. -/
theorem success_body_is_exact_and_omits_message_witness :
    (handle (stubProvider (.ok ⟨some "msg-42"⟩))
      (.object (some "+15551234567") (some "hi"))).effects.written =
      [⟨200, [("message", "SMS enviado com sucesso para +15551234567. MessageId: msg-42")]⟩] :=
  (success_body_is_exact_and_omits_message (stubProvider (.ok ⟨some "msg-42"⟩))
    "+15551234567" "hi" "msg-42" ⟨{ Region := "us-east-1" }⟩ (by decide) (by decide) rfl rfl).2.1

/-- C4: for a valid request, when the session opens and the provider publish call returns an
error, the handler writes exactly one response, status 500 with the fixed body
`"message": "Falha ao enviar SMS"`, whatever the error text: nothing of the provider reaches the
body, the error text goes to the log alone. -/
theorem publish_error_gets_fixed_500 (aws : Provider) (p m : String) (sess : Session)
    (err : String) (hp : p ≠ "") (hm : m ≠ "")
    (hs : aws.NewSession { Region := "us-east-1" } = .ok sess)
    (hpub : aws.Publish sess { PhoneNumber := p, Message := m } = .error err) :
    (handle aws (.object (some p) (some m))).exit = .returned ∧
    (handle aws (.object (some p) (some m))).effects.written =
      [⟨StatusInternalServerError, [("message", "Falha ao enviar SMS")]⟩] ∧
    (handle aws (.object (some p) (some m))).effects.logs =
      [(.error, "Falha ao enviar SMS: " ++ err)] := by
  rw [handle_publish_error aws _ _ sess err (ShouldBindJSON_object p m hp hm) hs hpub]
  exact ⟨rfl, rfl, rfl⟩

/-- Witness of C4: a provider that answers every publish with `Throttling: msg-42`. -/
theorem publish_error_gets_fixed_500_witness :
    (handle (stubProvider (.error "Throttling: msg-42"))
      (.object (some "+15551234567") (some "hi"))).effects.written =
      [⟨500, [("message", "Falha ao enviar SMS")]⟩] :=
  (publish_error_gets_fixed_500 (stubProvider (.error "Throttling: msg-42"))
    "+15551234567" "hi" ⟨{ Region := "us-east-1" }⟩ "Throttling: msg-42"
    (by decide) (by decide) rfl rfl).2.1

/-- C5: for a valid request, when `session.NewSession` fails, the handler writes exactly one
response, status 500 with body `"message": "Falha ao criar uma nova sessão da AWS"`, and the
provider publish operation is never invoked: the one external call is the session creation. -/
theorem session_error_gets_500_without_publish (aws : Provider) (p m : String) (err : String)
    (hp : p ≠ "") (hm : m ≠ "")
    (hs : aws.NewSession { Region := "us-east-1" } = .error err) :
    (handle aws (.object (some p) (some m))).exit = .returned ∧
    (handle aws (.object (some p) (some m))).effects.written =
      [⟨StatusInternalServerError, [("message", "Falha ao criar uma nova sessão da AWS")]⟩] ∧
    (handle aws (.object (some p) (some m))).effects.calls =
      [.newSession { Region := "us-east-1" }] ∧
    publishCalls (handle aws (.object (some p) (some m))).effects.calls = 0 := by
  rw [handle_session_error aws _ _ err (ShouldBindJSON_object p m hp hm) hs]
  exact ⟨rfl, rfl, rfl, rfl⟩

/-- Witness of C5: a provider without credentials. -/
theorem session_error_gets_500_without_publish_witness :
    (handle noSessionProvider (.object (some "+15551234567") (some "hi"))).effects.written =
      [⟨500, [("message", "Falha ao criar uma nova sessão da AWS")]⟩] ∧
    publishCalls
      (handle noSessionProvider (.object (some "+15551234567") (some "hi"))).effects.calls = 0 :=
  have t := session_error_gets_500_without_publish noSessionProvider
    "+15551234567" "hi" "NoCredentialProviders" (by decide) (by decide) rfl
  ⟨t.2.1, t.2.2.2⟩

/-- C9: in every handling of a `POST /sms` request, on every path, the session is created at
most once, the publish operation is invoked at most once and at most one response is written,
exactly one when the handler returns. After the first failure no further external call is made
and exactly one response, an error response, is written: a binding failure makes no call; a
session failure makes the session call alone; a publish failure makes the session call and one
publish call. -/
theorem no_retry_on_any_path (aws : Provider) (body : Payload) :
    sessionCalls (handle aws body).effects.calls ≤ 1 ∧
    publishCalls (handle aws body).effects.calls ≤ 1 ∧
    (handle aws body).effects.written.length ≤ 1 ∧
    ((handle aws body).exit = .returned → (handle aws body).effects.written.length = 1) ∧
    (BindingFails body →
      (handle aws body).effects.calls = [] ∧
      (handle aws body).effects.written.map (fun r => r.status) = [400]) ∧
    (∀ rb err, ShouldBindJSON body = .ok rb →
      aws.NewSession { Region := "us-east-1" } = .error err →
      (handle aws body).effects.calls = [.newSession { Region := "us-east-1" }] ∧
      (handle aws body).effects.written.map (fun r => r.status) = [500]) ∧
    (∀ rb sess err, ShouldBindJSON body = .ok rb →
      aws.NewSession { Region := "us-east-1" } = .ok sess →
      aws.Publish sess { PhoneNumber := rb.PhoneNumber, Message := rb.Message } = .error err →
      (handle aws body).effects.calls =
        [.newSession { Region := "us-east-1" },
          .publish sess { PhoneNumber := rb.PhoneNumber, Message := rb.Message }] ∧
      (handle aws body).effects.written.map (fun r => r.status) = [500]) := by
  refine ⟨?_, ?_, ?_, ?_, ?_, ?_, ?_⟩
  · rcases handle_cases aws body with ⟨_, _, h⟩ | ⟨_, _, _, _, h⟩ | ⟨_, _, _, _, _, _, h⟩ |
      ⟨_, _, _, _, _, _, h⟩ | ⟨_, _, _, _, _, h⟩ <;> rw [h] <;> simp [sessionCalls]
  · rcases handle_cases aws body with ⟨_, _, h⟩ | ⟨_, _, _, _, h⟩ | ⟨_, _, _, _, _, _, h⟩ |
      ⟨_, _, _, _, _, _, h⟩ | ⟨_, _, _, _, _, h⟩ <;> rw [h] <;> simp [publishCalls]
  · rcases handle_cases aws body with ⟨_, _, h⟩ | ⟨_, _, _, _, h⟩ | ⟨_, _, _, _, _, _, h⟩ |
      ⟨_, _, _, _, _, _, h⟩ | ⟨_, _, _, _, _, h⟩ <;> rw [h] <;> simp
  · rcases handle_cases aws body with ⟨_, _, h⟩ | ⟨_, _, _, _, h⟩ | ⟨_, _, _, _, _, _, h⟩ |
      ⟨_, _, _, _, _, _, h⟩ | ⟨_, _, _, _, _, h⟩ <;> rw [h] <;> simp
  · rintro ⟨err, hb⟩
    rw [handle_bind_error aws body err hb]
    exact ⟨rfl, rfl⟩
  · intro rb err hb hs
    rw [handle_session_error aws body rb err hb hs]
    exact ⟨rfl, rfl⟩
  · intro rb sess err hb hs hp
    rw [handle_publish_error aws body rb sess err hb hs hp]
    exact ⟨rfl, rfl⟩

/-! ## `fmt.Sprint` of a status code can be read back -/

theorem digitVal_digitChar (k : Nat) (h : k < 10) : digitVal (Nat.digitChar k) = k := by
  interval_cases k <;> rfl

theorem toDigitsCore_acc (fuel : Nat) : ∀ (n : Nat) (ds : List Char),
    Nat.toDigitsCore 10 fuel n ds = Nat.toDigitsCore 10 fuel n [] ++ ds := by
  induction fuel with
  | zero => intro n ds; simp [Nat.toDigitsCore]
  | succ f ih =>
    intro n ds
    simp only [Nat.toDigitsCore]
    split_ifs with h
    · simp
    · rw [ih (n / 10) (_ :: ds), ih (n / 10) [_]]
      simp

theorem readDigits_toDigitsCore (fuel : Nat) : ∀ n : Nat, n < fuel →
    readDigits (Nat.toDigitsCore 10 fuel n []) = n := by
  induction fuel with
  | zero => intro n h; omega
  | succ f ih =>
    intro n hn
    simp only [Nat.toDigitsCore]
    split_ifs with h
    · simp only [readDigits, List.foldl]
      rw [digitVal_digitChar _ (Nat.mod_lt _ (by norm_num))]
      omega
    · rw [toDigitsCore_acc]
      have hlt : n / 10 < f := by omega
      have hrec := ih (n / 10) hlt
      simp only [readDigits, List.foldl_append, List.foldl] at hrec ⊢
      rw [hrec, digitVal_digitChar _ (Nat.mod_lt _ (by norm_num))]
      omega

theorem readDigits_repr (n : Nat) : readDigits (Nat.repr n).data = n := by
  simp only [Nat.repr, Nat.toDigits, List.asString]
  exact readDigits_toDigitsCore (n + 1) n (Nat.lt_succ_self n)

/-- Two status codes with the same decimal text are the same code. -/
theorem toString_status_eq_iff (a b : Nat) : toString a = toString b ↔ a = b := by
  constructor
  · intro h
    have h2 : Nat.repr a = Nat.repr b := h
    rw [← readDigits_repr a, ← readDigits_repr b, h2]
  · rintro rfl
    rfl

/-! ## The middleware, one request at a time -/

theorem serve_cons (x : Exchange) (xs : List Exchange) (reg : Registry) :
    serve (x :: xs) reg = serve xs (PrometheusMiddleware x reg).2 :=
  rfl

/-- Whatever `c.Next()` does, the middleware adds one observation, labelled with the method, the
path and the constant `"0"`. -/
theorem middleware_observes (x : Exchange) (reg : Registry) :
    (PrometheusMiddleware x reg).2.httpResponseTime =
      reg.httpResponseTime ++
        [{ method := x.Method, endpoint := x.Path, status_code := "0", elapsed := x.elapsed }] := by
  unfold PrometheusMiddleware
  cases x.next <;> rfl

/-- Effect of one request on the counter cell of a (method, path, status) triple. -/
theorem middleware_counts (x : Exchange) (reg : Registry) (m p : String) (s : Nat) :
    (PrometheusMiddleware x reg).2.httpRequestsTotal m p (toString s) =
      reg.httpRequestsTotal m p (toString s) +
        if x.Method = m ∧ x.Path = p ∧ x.next = .completed s then 1 else 0 := by
  unfold PrometheusMiddleware
  cases hn : x.next with
  | completed st =>
    simp only [ObserveDuration, Inc, Downstream.completed.injEq, toString_status_eq_iff]
    by_cases h : m = x.Method ∧ p = x.Path ∧ s = st
    · obtain ⟨rfl, rfl, rfl⟩ := h
      simp
    · rw [if_neg h, if_neg]
      · rfl
      · rintro ⟨h1, h2, h3⟩
        exact h ⟨h1.symm, h2.symm, h3.symm⟩
  | panicked pn =>
    simp [ObserveDuration]

theorem serve_counts (xs : List Exchange) : ∀ (reg : Registry) (m p : String) (s : Nat),
    (serve xs reg).httpRequestsTotal m p (toString s) =
      reg.httpRequestsTotal m p (toString s) +
        xs.countP (fun x => decide (x.Method = m ∧ x.Path = p ∧ x.next = .completed s)) := by
  induction xs with
  | nil => intro reg m p s; rfl
  | cons x xs ih =>
    intro reg m p s
    rw [serve_cons, ih, middleware_counts, List.countP_cons]
    by_cases h : x.Method = m ∧ x.Path = p ∧ x.next = .completed s
    · simp only [h, and_self, if_true, decide_True]
      omega
    · simp only [h, if_false, decide_False]
      simp

theorem serve_observes (xs : List Exchange) : ∀ reg : Registry,
    (serve xs reg).httpResponseTime =
      reg.httpResponseTime ++ xs.map fun x =>
        { method := x.Method, endpoint := x.Path, status_code := "0", elapsed := x.elapsed } := by
  induction xs with
  | nil => intro reg; simp [serve]
  | cons x xs ih =>
    intro reg
    rw [serve_cons, ih, middleware_observes]
    simp

/-! ## The claims on `PrometheusMiddleware` -/

/-- C6 fails as stated, at the one-request sequence `POST /sms` whose downstream handler panics
(the nil `MessageId` of the `/sms` handler): the request goes through the middleware, which
records its histogram observation, yet it increments no cell of `http_requests_total`, since the
increment stands after `c.Next()` and is not deferred. Every cell is still zero afterwards. -/
theorem panicking_request_is_not_counted_counterexample :
    ¬ IncrementsOneCell emptyRegistry
      (PrometheusMiddleware ⟨"POST", "/sms", .panicked .nilDereference, 7⟩ emptyRegistry).2 ∧
    (∀ m p l,
      (serve [⟨"POST", "/sms", .panicked .nilDereference, 7⟩] emptyRegistry).httpRequestsTotal
        m p l = 0) ∧
    observationCount
      (serve [⟨"POST", "/sms", .panicked .nilDereference, 7⟩] emptyRegistry) "POST" "/sms" = 1 := by
  refine ⟨?_, ?_, by decide⟩
  · rintro ⟨m, p, l, h, -⟩
    simp [PrometheusMiddleware, ObserveDuration, emptyRegistry] at h
  · intro m p l
    rfl

/-- C6, amended: after any finite sequence of requests has gone through the middleware from the
empty registry, the value of `http_requests_total` at a (method, path, status) triple is the
number of requests of the sequence with that method and URL path whose downstream handler
completed (returned from `c.Next()` without a panic) with that final status. A request whose
downstream handler completes with status `st` increments the cell of (its method, its path,
`st`) by exactly 1, after the handler has completed, and leaves every other cell unchanged; a
request whose downstream handler panics changes no cell. -/
theorem request_counter_counts_each_triple (xs : List Exchange) (m p : String) (s : Nat) :
    (serve xs emptyRegistry).httpRequestsTotal m p (toString s) =
      xs.countP (fun x => decide (x.Method = m ∧ x.Path = p ∧ x.next = .completed s)) ∧
    (∀ (reg : Registry) (x : Exchange) (st : Nat), x.next = .completed st →
      (PrometheusMiddleware x reg).2.httpRequestsTotal x.Method x.Path (toString st) =
        reg.httpRequestsTotal x.Method x.Path (toString st) + 1 ∧
      ∀ m2 p2 l2, ¬ (m2 = x.Method ∧ p2 = x.Path ∧ l2 = toString st) →
        (PrometheusMiddleware x reg).2.httpRequestsTotal m2 p2 l2 =
          reg.httpRequestsTotal m2 p2 l2) ∧
    (∀ (reg : Registry) (x : Exchange) (pn : Panic), x.next = .panicked pn →
      (PrometheusMiddleware x reg).2.httpRequestsTotal = reg.httpRequestsTotal) := by
  refine ⟨?_, ?_, ?_⟩
  · rw [serve_counts]
    simp [emptyRegistry]
  · intro reg x st hx
    unfold PrometheusMiddleware
    rw [hx]
    refine ⟨?_, ?_⟩
    · simp [ObserveDuration, Inc]
    · intro m2 p2 l2 hne
      simp only [ObserveDuration, Inc]
      rw [if_neg hne]
  · intro reg x pn hx
    unfold PrometheusMiddleware
    rw [hx]
    rfl

/-- C7: after any finite sequence of requests has gone through the middleware from the empty
registry, the observation count of `http_response_time_seconds` for a (method, path) pair is the
number of requests of the sequence with that method and path, whatever status each ended with
and whether or not its handler completed. Each request records exactly one observation, with its
method and path; the third label of the histogram, `status_code`, is the constant `"0"`, so the
whole count of the pair sits in the cell (method, path, `"0"`). -/
theorem histogram_counts_each_pair (xs : List Exchange) (m p : String) :
    observationCount (serve xs emptyRegistry) m p =
      xs.countP (fun x => decide (x.Method = m ∧ x.Path = p)) ∧
    cellObservationCount (serve xs emptyRegistry) m p "0" =
      xs.countP (fun x => decide (x.Method = m ∧ x.Path = p)) ∧
    (∀ o ∈ (serve xs emptyRegistry).httpResponseTime, o.status_code = "0") ∧
    (∀ (reg : Registry) (x : Exchange),
      (PrometheusMiddleware x reg).2.httpResponseTime =
        reg.httpResponseTime ++
          [{ method := x.Method, endpoint := x.Path, status_code := "0",
             elapsed := x.elapsed }]) := by
  refine ⟨?_, ?_, ?_, ?_⟩
  · unfold observationCount
    rw [serve_observes, ← List.countP_eq_length_filter]
    simp only [emptyRegistry, List.nil_append, List.countP_map]
    rfl
  · unfold cellObservationCount
    rw [serve_observes, ← List.countP_eq_length_filter]
    simp only [emptyRegistry, List.nil_append, List.countP_map]
    congr 1
    funext x
    simp
  · intro o ho
    rw [serve_observes] at ho
    simp only [emptyRegistry, List.nil_append, List.mem_map] at ho
    obtain ⟨x, -, rfl⟩ := ho
    rfl
  · intro reg x
    exact middleware_observes x reg

/-! ## The sampler, one iteration at a time -/

theorem addTraffic_sent (reg : Registry) (stat : IOCountersStat) :
    (addTraffic reg stat).networkTraffic "sent" = reg.networkTraffic "sent" + stat.BytesSent := by
  simp [addTraffic, Add]

theorem addTraffic_received (reg : Registry) (stat : IOCountersStat) :
    (addTraffic reg stat).networkTraffic "received" =
      reg.networkTraffic "received" + stat.BytesRecv := by
  simp [addTraffic, Add]

theorem foldl_addTraffic_sent (stats : List IOCountersStat) : ∀ reg : Registry,
    (stats.foldl addTraffic reg).networkTraffic "sent" =
      reg.networkTraffic "sent" + (stats.map fun stat => stat.BytesSent).sum := by
  induction stats with
  | nil => intro reg; simp
  | cons stat stats ih =>
    intro reg
    simp only [List.foldl_cons, List.map_cons, List.sum_cons]
    rw [ih, addTraffic_sent]
    omega

theorem foldl_addTraffic_received (stats : List IOCountersStat) : ∀ reg : Registry,
    (stats.foldl addTraffic reg).networkTraffic "received" =
      reg.networkTraffic "received" + (stats.map fun stat => stat.BytesRecv).sum := by
  induction stats with
  | nil => intro reg; simp
  | cons stat stats ih =>
    intro reg
    simp only [List.foldl_cons, List.map_cons, List.sum_cons]
    rw [ih, addTraffic_received]
    omega

theorem foldl_addTraffic_gauges (stats : List IOCountersStat) : ∀ reg : Registry,
    (stats.foldl addTraffic reg).cpuUsage = reg.cpuUsage ∧
      (stats.foldl addTraffic reg).memoryUsage = reg.memoryUsage := by
  induction stats with
  | nil => intro reg; exact ⟨rfl, rfl⟩
  | cons stat stats ih =>
    intro reg
    simp only [List.foldl_cons]
    rw [(ih _).1, (ih _).2]
    exact ⟨rfl, rfl⟩

/-- An iteration whose memory query returned a stat runs to its end; its network samples are
added to the two counters. -/
theorem sampleOnce_completes (s : Sample) (reg : Registry) (h : s.memStat ≠ none) :
    ∃ reg2, sampleOnce s reg = (.returned, reg2) ∧
      reg2.networkTraffic "sent" = reg.networkTraffic "sent" + sentTotal s ∧
      reg2.networkTraffic "received" = reg.networkTraffic "received" + recvTotal s := by
  cases hm : s.memStat with
  | none => exact absurd hm h
  | some ms =>
    unfold sampleOnce
    rw [hm]
    refine ⟨_, rfl, ?_, ?_⟩
    · rw [foldl_addTraffic_sent]
      cases s.cpuPercent <;> rfl
    · rw [foldl_addTraffic_received]
      cases s.cpuPercent <;> rfl

/-- A run of iterations whose memory queries all returned a stat reaches the sleep after the
last one, with every network sample added to the counters. -/
theorem collectSystemMetrics_completes (samples : List Sample) : ∀ reg : Registry,
    (∀ s ∈ samples, s.memStat ≠ none) →
    ∃ reg2, collectSystemMetrics samples reg = (.returned, reg2) ∧
      reg2.networkTraffic "sent" = reg.networkTraffic "sent" + (samples.map sentTotal).sum ∧
      reg2.networkTraffic "received" =
        reg.networkTraffic "received" + (samples.map recvTotal).sum := by
  induction samples with
  | nil => intro reg _; exact ⟨reg, rfl, by simp, by simp⟩
  | cons s rest ih =>
    intro reg h
    obtain ⟨reg1, h1, hs1, hr1⟩ := sampleOnce_completes s reg (h s (List.mem_cons_self _ _))
    obtain ⟨reg2, h2, hs2, hr2⟩ := ih reg1 (fun t ht => h t (List.mem_cons_of_mem _ ht))
    refine ⟨reg2, ?_, ?_, ?_⟩
    · simp only [collectSystemMetrics, h1]
      exact h2
    · simp only [List.map_cons, List.sum_cons]
      omega
    · simp only [List.map_cons, List.sum_cons]
      omega

/-- A failed CPU query is skipped: `cpu_usage` keeps its value, the memory gauge and the network
counters are updated, and the iteration runs to its end. -/
theorem cpu_failure_is_skipped (reg : Registry) (memStat : VirtualMemoryStat)
    (netStat : List IOCountersStat) :
    (sampleOnce ⟨[], some memStat, netStat⟩ reg).1 = .returned ∧
    (sampleOnce ⟨[], some memStat, netStat⟩ reg).2.cpuUsage = reg.cpuUsage ∧
    (sampleOnce ⟨[], some memStat, netStat⟩ reg).2.memoryUsage = memStat.UsedPercent ∧
    (sampleOnce ⟨[], some memStat, netStat⟩ reg).2.networkTraffic "sent" =
      reg.networkTraffic "sent" + (netStat.map fun stat => stat.BytesSent).sum := by
  refine ⟨rfl, ?_, ?_, ?_⟩
  · exact (foldl_addTraffic_gauges netStat _).1
  · exact (foldl_addTraffic_gauges netStat _).2
  · exact foldl_addTraffic_sent netStat _

/-- A failed network query is skipped: the network counters keep their values, the two gauges
are updated, and the iteration runs to its end. -/
theorem network_failure_is_skipped (reg : Registry) (v : Rat) (more : List Rat)
    (memStat : VirtualMemoryStat) :
    sampleOnce ⟨v :: more, some memStat, []⟩ reg =
      (.returned, { reg with cpuUsage := v, memoryUsage := memStat.UsedPercent }) :=
  rfl

/-! ## The claims on `collectSystemMetrics` -/

/-- C8, at the failing input: in an iteration whose memory query fails (`mem.VirtualMemory`
returns an error and a nil stat), whatever the CPU and network queries return, reading
`memStat.UsedPercent` panics. The network counters are not updated in that iteration, and the
loop is left: no later sample is taken, whatever it would have been. -/
theorem memory_failure_panics_and_ends_loop (reg : Registry) (cpuPercent : List Rat)
    (netStat : List IOCountersStat) (rest : List Sample) :
    (sampleOnce ⟨cpuPercent, none, netStat⟩ reg).1 = .panicked .nilDereference ∧
    (sampleOnce ⟨cpuPercent, none, netStat⟩ reg).2.networkTraffic = reg.networkTraffic ∧
    (sampleOnce ⟨cpuPercent, none, netStat⟩ reg).2.memoryUsage = reg.memoryUsage ∧
    collectSystemMetrics (⟨cpuPercent, none, netStat⟩ :: rest) reg =
      sampleOnce ⟨cpuPercent, none, netStat⟩ reg := by
  cases cpuPercent with
  | nil => exact ⟨rfl, rfl, rfl, rfl⟩
  | cons v more => exact ⟨rfl, rfl, rfl, rfl⟩

/-- C10: take `k` iterations of the sampler that run to their end (in each the memory query
returned a stat), from zeroed counters, byte counts being exact numbers. The loop reaches the
sleep after the last one with `network_traffic_bytes_total` at `s_1 + ... + s_k` for `sent` and
at `r_1 + ... + r_k` for `received`, where `s_i`, `r_i` are the sums over the interface stats of
iteration `i`. The last iteration added its own totals to the values left by the earlier ones:
the counter never resets nor decreases, no delta is taken, and when the earlier readings are not
all zero the counter is strictly greater than the latest OS total. -/
theorem network_counter_accumulates_every_tick (samples : List Sample)
    (h : ∀ s ∈ samples, s.memStat ≠ none) :
    ∃ reg, collectSystemMetrics samples emptyRegistry = (.returned, reg) ∧
      reg.networkTraffic "sent" = (samples.map sentTotal).sum ∧
      reg.networkTraffic "received" = (samples.map recvTotal).sum ∧
      ∀ earlier last, samples = earlier ++ [last] →
        (∃ before, collectSystemMetrics earlier emptyRegistry = (.returned, before) ∧
          reg.networkTraffic "sent" = before.networkTraffic "sent" + sentTotal last ∧
          reg.networkTraffic "received" = before.networkTraffic "received" + recvTotal last ∧
          before.networkTraffic "sent" ≤ reg.networkTraffic "sent" ∧
          before.networkTraffic "received" ≤ reg.networkTraffic "received") ∧
        (0 < (earlier.map sentTotal).sum → sentTotal last < reg.networkTraffic "sent") ∧
        (0 < (earlier.map recvTotal).sum → recvTotal last < reg.networkTraffic "received") := by
  obtain ⟨reg, hrun, hs, hr⟩ := collectSystemMetrics_completes samples emptyRegistry h
  have hs0 : reg.networkTraffic "sent" = (samples.map sentTotal).sum := by
    rw [hs]; simp [emptyRegistry]
  have hr0 : reg.networkTraffic "received" = (samples.map recvTotal).sum := by
    rw [hr]; simp [emptyRegistry]
  refine ⟨reg, hrun, hs0, hr0, ?_⟩
  intro earlier last hsplit
  have hearlier : ∀ s ∈ earlier, s.memStat ≠ none := fun s hsm =>
    h s (by rw [hsplit]; exact List.mem_append_left _ hsm)
  obtain ⟨before, hb, hbs, hbr⟩ := collectSystemMetrics_completes earlier emptyRegistry hearlier
  have hbs0 : before.networkTraffic "sent" = (earlier.map sentTotal).sum := by
    rw [hbs]; simp [emptyRegistry]
  have hbr0 : before.networkTraffic "received" = (earlier.map recvTotal).sum := by
    rw [hbr]; simp [emptyRegistry]
  have es : (samples.map sentTotal).sum = (earlier.map sentTotal).sum + sentTotal last := by
    rw [hsplit]; simp
  have er : (samples.map recvTotal).sum = (earlier.map recvTotal).sum + recvTotal last := by
    rw [hsplit]; simp
  refine ⟨⟨before, hb, ?_, ?_, ?_, ?_⟩, ?_, ?_⟩ <;> omega

/-- Witness of C10: two iterations reporting 100 then 150 bytes sent, 50 then 70 received; the
exported counter shows 250 and 120 against the latest OS totals 150 and 70. -/
theorem network_counter_accumulates_every_tick_witness :
    ∃ reg, collectSystemMetrics
        [⟨[3], some ⟨40⟩, [⟨100, 50⟩]⟩, ⟨[], some ⟨41⟩, [⟨150, 70⟩]⟩] emptyRegistry
        = (.returned, reg) ∧
      reg.networkTraffic "sent" = 250 ∧ reg.networkTraffic "received" = 120 :=
  have t := network_counter_accumulates_every_tick
    [⟨[3], some ⟨40⟩, [⟨100, 50⟩]⟩, ⟨[], some ⟨41⟩, [⟨150, 70⟩]⟩]
    (by intro s hs; simp only [List.mem_cons, List.mem_singleton, List.not_mem_nil, or_false] at hs
        rcases hs with rfl | rfl <;> simp)
  match t with
  | ⟨reg, hrun, hs, hr, _⟩ => ⟨reg, hrun, by rw [hs]; rfl, by rw [hr]; rfl⟩

end SmsToSns
